import Mathlib

/-!
Verification of `PyQtExamples/ShowImageExample/image_widget.py`.

The file shallowly embeds the `ImageWidget` class: numpy buffers become a
shape-plus-flat-data structure, Qt images become an inductive type, the
widget's mutable attributes become a record, and each method becomes a pure
function returning the new record together with the list of externally
visible effects (repaint requests, log lines, blit calls).
-/

set_option autoImplicit false

namespace ImageWidgetSpec

/-- A numpy ndarray as used by the widget: its shape (list of dimension
sizes, row-major) and its flattened element data.  A grayscale image has
shape `[h, w]`, a colour image `[h, w, 3]` with channel-interleaved data. -/
structure NDArray where
  shape : List Nat
  data : List Nat
  deriving DecidableEq, Repr

/-- Numpy `ndarray.size`: the total number of elements, the product of the shape. -/
def NDArray.size (a : NDArray) : Nat :=
  a.shape.prod

/-- Qt's `qRgb(r, g, b)`: the 32-bit value `0xffRRGGBB`, each channel
taken modulo 256. -/
def qRgb (r g b : Nat) : Nat :=
  0xFF * 2 ^ 24 + (r % 256) * 2 ^ 16 + (g % 256) * 2 ^ 8 + (b % 256)

/-- A `QImage` value as the widget builds them: the null image `QImage()`,
an `Format_Indexed8` image (raw index bytes, width, height, bytes per line,
colour table), or a `Format_RGB888` image (raw bytes, width, height, bytes
per line). -/
inductive QtImage where
  | empty : QtImage
  | indexed (bits : List Nat) (width height bytesPerLine : Nat)
      (colorTable : List Nat) : QtImage
  | rgb888 (bits : List Nat) (width height bytesPerLine : Nat) : QtImage
  deriving DecidableEq, Repr

/-- Accessor `QImage.width()`: 0 for the null image. -/
def QtImage.width : QtImage → Nat
  | .empty => 0
  | .indexed _ w _ _ _ => w
  | .rgb888 _ w _ _ => w

/-- Accessor `QImage.height()`: 0 for the null image. -/
def QtImage.height : QtImage → Nat
  | .empty => 0
  | .indexed _ _ h _ _ => h
  | .rgb888 _ _ h _ => h

/-- Qt's `QImage.setColorTable`: replaces the colour table of an indexed image;
it has no effect on the other formats used here. -/
def QtImage.setColorTable (img : QtImage) (t : List Nat) : QtImage :=
  match img with
  | .indexed b w h s _ => .indexed b w h s t
  | other => other

/-- Nearest-neighbour resampling of `src` (shape `[sh, sw] ++ channels`) to
`dstRows × dstCols`.  This stands in for the resampling kernel of the
external `cv2.resize`, which the spec treats as an opaque collaborator; no
claim depends on the interpolated pixel values, only on the output
geometry. -/
def resampleNearest (src : NDArray) (dstCols dstRows : Nat) : List Nat :=
  let sh := src.shape.getD 0 0
  let sw := src.shape.getD 1 0
  let ch := (src.shape.drop 2).prod
  (List.range dstRows).flatMap fun r =>
    (List.range dstCols).flatMap fun c =>
      (List.range ch).map fun k =>
        src.data.getD (((r * sh / dstRows) * sw + c * sw / dstCols) * ch + k) 0

/-- Model of the external `cv2.resize(src, dsize, dst, fx, fy, ...)` at the
single call site of the widget.  Per the OpenCV contract, a nonzero
`dsize = (width, height)` determines the output size and the explicit scale
factors `fx`, `fy` are then ignored; the widget always passes the nonzero
tuple `new_image.shape[0:2]` as `dsize`.  The output therefore has
`dsize[1]` rows and `dsize[0]` columns, the channel dimensions unchanged.
At the call site the third and fourth positional arguments receive the
scale factor (landing in the `dst` and `fx` slots); neither influences the
returned image, so the model takes and ignores them. -/
def cv2_resize (src : NDArray) (dsize : List Nat) (_dst _fx : ℚ) : NDArray :=
  let dstCols := dsize.getD 0 0
  let dstRows := dsize.getD 1 0
  { shape := dstRows :: dstCols :: src.shape.drop 2,
    data := resampleNearest src dstCols dstRows }

/-- Channel swap on channel-interleaved data: `b,g,r` triples become
`r,g,b` triples. -/
def bgr2rgbData : List Nat → List Nat
  | b :: g :: r :: rest => r :: g :: b :: bgr2rgbData rest
  | other => other

/-- Model of the external `cv2.cvtColor(src, cv2.COLOR_BGR2RGB)`: same
shape, first and third channel of every pixel exchanged. -/
def cv2_cvtColor_BGR2RGB (src : NDArray) : NDArray :=
  { src with data := bgr2rgbData src.data }

/-- The widget's attributes: `desired_width`, `showed_image` (absent while
still `None`), `grayscale_colortable`, and the size last passed to
`setFixedSize` (the widget's visible bounds, `none` before the first call). -/
structure ImageWidget where
  desired_width : Nat
  showed_image : Option QtImage
  grayscale_colortable : List Nat
  fixedSize : Option (Nat × Nat)
  deriving DecidableEq, Repr

/-- Externally visible effects of a method call. -/
inductive Effect where
  | repaint : Effect
  | logMsg (s : String) : Effect
  deriving DecidableEq, Repr

/-- Method `clearBuffers`: store a fresh null `QImage()` as the shown image and
request a repaint. -/
def clearBuffers (w : ImageWidget) : ImageWidget × List Effect :=
  ({ w with showed_image := some QtImage.empty }, [Effect.repaint])

/-- The grayscale colour table built in `__init__`:
`np.array([qRgb(i, i, i) for i in range(256)])`. -/
def grayscaleColortable : List Nat :=
  (List.range 256).map fun i => qRgb i i i

/-- Constructor `__init__`: set `desired_width := 480`, `showed_image := None`, run
`clearBuffers()`, then build `grayscale_colortable`.  The record literal
holds the attribute values in force before each assignment (Python
attributes simply do not exist yet, which no claim observes). -/
def ImageWidget.init : ImageWidget :=
  let w0 : ImageWidget :=
    { desired_width := 480, showed_image := none,
      grayscale_colortable := [], fixedSize := none }
  let w1 := (clearBuffers w0).1
  { w1 with grayscale_colortable := grayscaleColortable }

/-- The diagnostic printed for an empty input buffer. -/
def emptyBufferMsg : String :=
  "Not updating image. The provided image is empty"

/-- Method `updateImage(new_image)`, translated line by line:
if `new_image.size` is nonzero, compute
`scaling_factor = desired_width / new_image.shape[1]`, call
`cv2.resize(new_image, new_image.shape[0:2], scaling_factor,
scaling_factor, INTER_LINEAR)`, call
`setFixedSize(scaled.shape[1], scaled.shape[0])`, then wrap: a
2-dimensional result becomes an `Indexed8` `QImage` (bytes per line equal
to the width) whose colour table is then set to the grayscale table; any
other result takes the colour branch, which converts the ORIGINAL
`new_image` from BGR to RGB and wraps that as `RGB888` with stride
`3 * width`; finally a repaint is requested.  An empty buffer only prints
a diagnostic. -/
def updateImage (w : ImageWidget) (new_image : NDArray) :
    ImageWidget × List Effect :=
  if new_image.size ≠ 0 then
    let scaling_factor : ℚ :=
      (w.desired_width : ℚ) / (new_image.shape.getD 1 0 : ℚ)
    let scaled_image :=
      cv2_resize new_image (new_image.shape.take 2) scaling_factor scaling_factor
    let w1 := { w with
      fixedSize := some (scaled_image.shape.getD 1 0, scaled_image.shape.getD 0 0) }
    let height := scaled_image.shape.getD 0 0
    let width := scaled_image.shape.getD 1 0
    if scaled_image.shape.length = 2 then
      let img := (QtImage.indexed scaled_image.data width height width
        []).setColorTable w1.grayscale_colortable
      ({ w1 with showed_image := some img }, [Effect.repaint])
    else
      let scaled2 := cv2_cvtColor_BGR2RGB new_image
      let img := QtImage.rgb888 scaled2.data width height (3 * width)
      ({ w1 with showed_image := some img }, [Effect.repaint])
  else
    (w, [Effect.logMsg emptyBufferMsg])

/-- One `painter.drawPixmap(x, y, w, h, pixmap)` call recorded during a
paint event; the pixmap carries the image it was built from. -/
structure BlitCall where
  x : Nat
  y : Nat
  w : Nat
  h : Nat
  pixmap : QtImage
  deriving DecidableEq, Repr

/-- Method `paintEvent`: if `showed_image` is not `None`, draw it at `(0, 0)` with
its own width and height; the widget state is returned unchanged because
the method assigns no attribute. -/
def paintEvent (wdg : ImageWidget) : ImageWidget × List BlitCall :=
  match wdg.showed_image with
  | none => (wdg, [])
  | some img => (wdg, [⟨0, 0, img.width, img.height, img⟩])

/-- The widget states reachable from the end of `__init__` through the
exposed operations. -/
inductive Reachable : ImageWidget → Prop where
  | start : Reachable ImageWidget.init
  | update (w : ImageWidget) (b : NDArray) :
      Reachable w → Reachable (updateImage w b).1
  | clear (w : ImageWidget) : Reachable w → Reachable (clearBuffers w).1
  | paint (w : ImageWidget) : Reachable w → Reachable (paintEvent w).1

/-- The image `updateImage` stores for a nonempty buffer, as a function of
the colour table and the buffer alone (factored out of `updateImage` for
the proofs below). -/
def wrapShowed (ct : List Nat) (b : NDArray) : QtImage :=
  let scaled := cv2_resize b (b.shape.take 2) 0 0
  let height := scaled.shape.getD 0 0
  let width := scaled.shape.getD 1 0
  if scaled.shape.length = 2 then
    QtImage.indexed scaled.data width height width ct
  else
    QtImage.rgb888 (cv2_cvtColor_BGR2RGB b).data width height (3 * width)

/-- A concrete 4×2 grayscale buffer (original height 4, width 2). -/
def bufG : NDArray :=
  ⟨[4, 2], [10, 20, 30, 40, 50, 60, 70, 80]⟩

/-- A second concrete grayscale buffer with different content. -/
def bufG2 : NDArray :=
  ⟨[2, 2], [9, 8, 7, 6]⟩

/-- A concrete 3×2 colour buffer (channel-last, BGR). -/
def bufC : NDArray :=
  ⟨[3, 2, 3], [0, 1, 2, 3, 4, 5, 6, 7, 8, 9, 10, 11, 12, 13, 14, 15, 16, 17]⟩

/-- A concrete empty buffer (`np.empty((0, 0))` has size 0). -/
def bufEmpty : NDArray :=
  ⟨[0, 0], []⟩

/-- The transient attribute values inside `__init__` before `clearBuffers`
runs: the only state whose `showed_image` is still `None`. -/
def noImageState : ImageWidget :=
  ⟨480, none, [], none⟩

lemma updateImage_of_size_eq_zero (w : ImageWidget) (b : NDArray)
    (h : b.size = 0) : updateImage w b = (w, [Effect.logMsg emptyBufferMsg]) := by
  simp [updateImage, h]

lemma updateImage_showed_of_size_ne_zero (w : ImageWidget) (b : NDArray)
    (h : b.size ≠ 0) :
    (updateImage w b).1.showed_image = some (wrapShowed w.grayscale_colortable b) := by
  simp only [updateImage, wrapShowed, cv2_resize, h, ne_eq, not_false_eq_true,
    if_true, QtImage.setColorTable]
  split <;> rfl

lemma wrapShowed_ne_empty (ct : List Nat) (b : NDArray) :
    wrapShowed ct b ≠ QtImage.empty := by
  unfold wrapShowed
  dsimp only
  split <;> simp

lemma updateImage_preserves_colortable (w : ImageWidget) (b : NDArray) :
    (updateImage w b).1.grayscale_colortable = w.grayscale_colortable := by
  unfold updateImage
  split
  · dsimp only
    split <;> rfl
  · rfl

lemma updateImage_preserves_desired_width (w : ImageWidget) (b : NDArray) :
    (updateImage w b).1.desired_width = w.desired_width := by
  unfold updateImage
  split
  · dsimp only
    split <;> rfl
  · rfl

lemma paintEvent_state (w : ImageWidget) : (paintEvent w).1 = w := by
  unfold paintEvent
  split <;> rfl

lemma updateImage_showed_ne_none (w : ImageWidget) (b : NDArray)
    (h : w.showed_image ≠ none) : (updateImage w b).1.showed_image ≠ none := by
  by_cases hb : b.size = 0
  · rw [updateImage_of_size_eq_zero w b hb]
    exact h
  · rw [updateImage_showed_of_size_ne_zero w b hb]
    exact Option.some_ne_none _

/-- C4: `updateImage` on an empty (zero-size) buffer only prints the
diagnostic: it raises nothing and returns every widget attribute —
`showed_image`, `fixedSize`, `desired_width`, `grayscale_colortable` —
unchanged, whatever the prior state was. -/
theorem updateImage_empty_buffer_noop (w : ImageWidget) (b : NDArray)
    (h : b.size = 0) :
    updateImage w b = (w, [Effect.logMsg emptyBufferMsg]) :=
  updateImage_of_size_eq_zero w b h

/-- Witness for C4: submitting the empty buffer in the initial state logs
and changes nothing. -/
theorem updateImage_empty_buffer_noop_witness :
    updateImage ImageWidget.init bufEmpty =
      (ImageWidget.init, [Effect.logMsg emptyBufferMsg]) :=
  updateImage_empty_buffer_noop ImageWidget.init bufEmpty (by decide)

/-- C5: `clearBuffers` always stores the empty placeholder image,
whatever the prior state, and applying it twice yields exactly the state
of applying it once. -/
theorem clearBuffers_no_image_idempotent (w : ImageWidget) :
    (clearBuffers w).1.showed_image = some QtImage.empty ∧
    (clearBuffers (clearBuffers w).1).1 = (clearBuffers w).1 :=
  ⟨rfl, rfl⟩

/-- C3: when `showed_image` is `None`, `paintEvent` issues no
`drawPixmap` call and leaves the widget untouched. -/
theorem paintEvent_no_image_draws_nothing (w : ImageWidget)
    (h : w.showed_image = none) :
    (paintEvent w).2 = [] ∧ (paintEvent w).1 = w := by
  refine ⟨?_, paintEvent_state w⟩
  simp [paintEvent, h]

/-- Witness for C3 at the one `None` state. -/
theorem paintEvent_no_image_draws_nothing_witness :
    (paintEvent noImageState).2 = [] :=
  (paintEvent_no_image_draws_nothing noImageState rfl).1

/-- C8: `desired_width` is 480 at the end of construction and no exposed
operation changes it. -/
theorem desired_width_constant :
    ImageWidget.init.desired_width = 480 ∧
    (∀ (w : ImageWidget) (b : NDArray),
      (updateImage w b).1.desired_width = w.desired_width) ∧
    (∀ w : ImageWidget, (clearBuffers w).1.desired_width = w.desired_width) ∧
    (∀ w : ImageWidget, (paintEvent w).1.desired_width = w.desired_width) :=
  ⟨rfl, updateImage_preserves_desired_width, fun _ => rfl,
    fun w => congrArg ImageWidget.desired_width (paintEvent_state w)⟩

/-- C1 is refuted by the code: for the nonempty 4×2 grayscale buffer the
stored image has width 4 (the original height) and height 2 (the original
width), not the claimed width 480 and height round(4·480/2) = 960.  The
resize call passes `shape[0:2]` as OpenCV's `(width, height)` target
size, which overrides the intended scale factors. -/
theorem gray_submit_stores_swapped_size :
    ((updateImage ImageWidget.init bufG).1.showed_image.map QtImage.width = some 4 ∧
      (updateImage ImageWidget.init bufG).1.showed_image.map QtImage.height = some 2) ∧
    ¬((4 : Nat) = 480 ∧ (2 : Nat) = 960) :=
  ⟨⟨rfl, rfl⟩, by decide⟩

/-- C2 is refuted by the code: for the nonempty 3×2 colour buffer the
stored image is the BGR→RGB conversion of the ORIGINAL buffer (the resize
result is discarded by the colour branch) wrapped with width 3 and height
2, not width 480; so neither the width/height law nor "pixel data comes
from the resized buffer" holds. -/
theorem color_submit_wraps_unresized_buffer :
    (updateImage ImageWidget.init bufC).1.showed_image =
      some (QtImage.rgb888
        [2, 1, 0, 5, 4, 3, 8, 7, 6, 11, 10, 9, 14, 13, 12, 17, 16, 15] 3 2 9) ∧
    (updateImage ImageWidget.init bufC).1.showed_image =
      some (QtImage.rgb888 (cv2_cvtColor_BGR2RGB bufC).data 3 2 9) ∧
    (3 : Nat) ≠ 480 :=
  ⟨rfl, rfl, by decide⟩

/-- C6: the grayscale colour table built in `__init__` has 256 entries,
entry `i` being `qRgb(i, i, i)`; neither `updateImage` nor `clearBuffers`
ever changes it; and a grayscale (2-dimensional) nonempty submit stores an
indexed image whose bits are the resize output's data and whose colour
table is exactly this table. -/
theorem grayscale_colortable_spec :
    (ImageWidget.init.grayscale_colortable.length = 256 ∧
      ∀ i : Nat, i < 256 →
        ImageWidget.init.grayscale_colortable[i]? = some (qRgb i i i)) ∧
    (∀ (w : ImageWidget) (b : NDArray),
      (updateImage w b).1.grayscale_colortable = w.grayscale_colortable) ∧
    (∀ w : ImageWidget,
      (clearBuffers w).1.grayscale_colortable = w.grayscale_colortable) ∧
    (∀ (w : ImageWidget) (b : NDArray), b.size ≠ 0 → b.shape.length = 2 →
      (updateImage w b).1.showed_image =
        some (QtImage.indexed
          (cv2_resize b (b.shape.take 2)
            ((w.desired_width : ℚ) / (b.shape.getD 1 0 : ℚ))
            ((w.desired_width : ℚ) / (b.shape.getD 1 0 : ℚ))).data
          (b.shape.getD 0 0) (b.shape.getD 1 0) (b.shape.getD 0 0)
          w.grayscale_colortable)) := by
  refine ⟨⟨?_, ?_⟩, updateImage_preserves_colortable, fun _ => rfl, ?_⟩
  · show grayscaleColortable.length = 256
    simp [grayscaleColortable]
  · intro i hi
    show grayscaleColortable[i]? = some (qRgb i i i)
    simp [grayscaleColortable, hi]
  · intro w b h1 h2
    obtain ⟨a, c, hb⟩ := List.length_eq_two.mp h2
    rw [updateImage_showed_of_size_ne_zero w b h1]
    simp [wrapShowed, cv2_resize, hb]

/-- Witness for C6 at palette index 10 and the concrete 4×2 buffer. -/
theorem grayscale_colortable_spec_witness :
    ImageWidget.init.grayscale_colortable[10]? = some (qRgb 10 10 10) ∧
    (updateImage ImageWidget.init bufG).1.showed_image =
      some (QtImage.indexed
        (cv2_resize bufG (bufG.shape.take 2)
          ((ImageWidget.init.desired_width : ℚ) / (bufG.shape.getD 1 0 : ℚ))
          ((ImageWidget.init.desired_width : ℚ) / (bufG.shape.getD 1 0 : ℚ))).data
        (bufG.shape.getD 0 0) (bufG.shape.getD 1 0) (bufG.shape.getD 0 0)
        ImageWidget.init.grayscale_colortable) :=
  ⟨grayscale_colortable_spec.1.2 10 (by decide),
    grayscale_colortable_spec.2.2.2 ImageWidget.init bufG (by decide) rfl⟩

set_option linter.unusedVariables false in
/-- C7: a second successful submit fully replaces the first: the stored
image after `updateImage b1; updateImage b2` equals the one after
`updateImage b2` alone, and so do the blits of the next paint event. -/
theorem second_submit_replaces_first (w : ImageWidget) (b1 b2 : NDArray)
    (h1 : b1.size ≠ 0) (h2 : b2.size ≠ 0) :
    (updateImage (updateImage w b1).1 b2).1.showed_image =
      (updateImage w b2).1.showed_image ∧
    (paintEvent (updateImage (updateImage w b1).1 b2).1).2 =
      (paintEvent (updateImage w b2).1).2 := by
  have hs : (updateImage (updateImage w b1).1 b2).1.showed_image =
      (updateImage w b2).1.showed_image := by
    rw [updateImage_showed_of_size_ne_zero _ b2 h2,
      updateImage_showed_of_size_ne_zero _ b2 h2,
      updateImage_preserves_colortable]
  refine ⟨hs, ?_⟩
  cases hc : (updateImage w b2).1.showed_image <;>
    simp [paintEvent, hs, hc]

/-- Witness for C7: two concrete successive grayscale submits. -/
theorem second_submit_replaces_first_witness :
    (updateImage (updateImage ImageWidget.init bufG).1 bufG2).1.showed_image =
      (updateImage ImageWidget.init bufG2).1.showed_image :=
  (second_submit_replaces_first ImageWidget.init bufG bufG2
    (by decide) (by decide)).1

/-- C9: a nonempty 2- or 3-dimensional buffer has a strictly positive
width (`shape[1]`), so the denominator of the scaling factor computed
inside `updateImage` is nonzero. -/
theorem nonempty_buffer_width_pos (b : NDArray)
    (hdim : b.shape.length = 2 ∨ b.shape.length = 3) (h : b.size ≠ 0) :
    0 < b.shape.getD 1 0 ∧ ((b.shape.getD 1 0 : Nat) : ℚ) ≠ 0 := by
  have hw : b.shape.getD 1 0 ≠ 0 := by
    rcases hdim with h2 | h3
    · obtain ⟨a, c, hb⟩ := List.length_eq_two.mp h2
      rw [hb]
      intro hc
      simp only [List.getD_cons_succ, List.getD_cons_zero] at hc
      exact h (by simp [NDArray.size, hb, hc])
    · obtain ⟨a, c, d, hb⟩ := List.length_eq_three.mp h3
      rw [hb]
      intro hc
      simp only [List.getD_cons_succ, List.getD_cons_zero] at hc
      exact h (by simp [NDArray.size, hb, hc])
  exact ⟨Nat.pos_of_ne_zero hw, Nat.cast_ne_zero.mpr hw⟩

/-- Witness for C9 at the concrete 4×2 buffer. -/
theorem nonempty_buffer_width_pos_witness :
    0 < bufG.shape.getD 1 0 ∧ ((bufG.shape.getD 1 0 : Nat) : ℚ) ≠ 0 :=
  nonempty_buffer_width_pos bufG (Or.inl rfl) (by decide)

/-- C10: from the end of construction on, `showed_image` is never `None`:
the constructor and `clearBuffers` store the empty placeholder, a
successful `updateImage` stores a non-placeholder image, and every
reachable state passes `paintEvent`'s presence guard (exactly one blit is
issued). -/
theorem showed_image_always_present :
    (∀ w : ImageWidget, Reachable w → w.showed_image ≠ none) ∧
    (ImageWidget.init.showed_image = some QtImage.empty ∧
      ∀ w : ImageWidget, (clearBuffers w).1.showed_image = some QtImage.empty) ∧
    (∀ (w : ImageWidget) (b : NDArray), b.size ≠ 0 →
      ∃ img : QtImage, (updateImage w b).1.showed_image = some img ∧
        img ≠ QtImage.empty) ∧
    (∀ w : ImageWidget, Reachable w → ((paintEvent w).2).length = 1) := by
  have hre : ∀ w : ImageWidget, Reachable w → w.showed_image ≠ none := by
    intro w hw
    induction hw with
    | start => exact Option.some_ne_none _
    | update w b _ ih => exact updateImage_showed_ne_none w b ih
    | clear w _ _ => exact Option.some_ne_none _
    | paint w _ ih => rw [paintEvent_state]; exact ih
  refine ⟨hre, ⟨rfl, fun _ => rfl⟩, ?_, ?_⟩
  · intro w b hb
    exact ⟨wrapShowed w.grayscale_colortable b,
      updateImage_showed_of_size_ne_zero w b hb, wrapShowed_ne_empty _ _⟩
  · intro w hw
    obtain ⟨img, himg⟩ := Option.ne_none_iff_exists'.mp (hre w hw)
    simp [paintEvent, himg]

/-- Witness for C10 at the initial state, a cleared state, and a concrete
successful submit. -/
theorem showed_image_always_present_witness :
    ImageWidget.init.showed_image ≠ none ∧
    (∃ img : QtImage,
      (updateImage ImageWidget.init bufG).1.showed_image = some img ∧
        img ≠ QtImage.empty) ∧
    ((paintEvent (clearBuffers ImageWidget.init).1).2).length = 1 :=
  ⟨showed_image_always_present.1 ImageWidget.init Reachable.start,
    showed_image_always_present.2.2.1 ImageWidget.init bufG (by decide),
    showed_image_always_present.2.2.2 (clearBuffers ImageWidget.init).1
      (Reachable.clear ImageWidget.init Reachable.start)⟩

end ImageWidgetSpec
